import Mathlib

/-!
Verification development for the TravelMate travel-planning backend.

The TypeScript sources embedded here are `convex/travel_apis.ts` (the
per-provider wrappers: Amadeus token, HERE geocoding, HERE routing, Amadeus
flight search, mock visa rules) and `convex/routes.ts` (the `saveRoute`
mutation and the `generateTravelPlan` aggregator action).

Modelling conventions:
* JavaScript numbers are modelled as `Int`; every property proved below only
  involves integer constants, addition and order, which the source uses on
  these fields.
* JavaScript strings are modelled as Lean `String`; `toLowerCase`,
  `toUpperCase` and `trim` are modelled on the ASCII range (the visa table,
  airport-code table and all literals in the source are ASCII).
* Each external HTTP interaction is an explicit environment value: the
  aggregator and the flight search are pure functions of that environment,
  so every branch of the source is an explicit branch here.
* `fallible` TypeScript values (`T | undefined`) are `Option T`; the
  `ApiResult<T>` wrapper of `travel_apis.ts` is embedded verbatim.
-/

namespace TravelMate

/-- Characters the model treats as JavaScript string whitespace (the ASCII
fragment of the WhiteSpace/LineTerminator classes used by `trim`). -/
def jsWhitespace (c : Char) : Bool :=
  c == ' ' || c == '\t' || c == '\n' || c == '\r' || c == '\x0B' || c == '\x0C'

/-- Remove leading and trailing whitespace from a character list (the list
form of JavaScript `String.prototype.trim`). -/
def trimChars (l : List Char) : List Char :=
  ((l.dropWhile jsWhitespace).reverse.dropWhile jsWhitespace).reverse

/-- JavaScript `s.trim()`. -/
def jsTrim (s : String) : String := String.mk (trimChars s.data)

/-- JavaScript `s.includes(pat)`: `pat` occurs contiguously in `s`. -/
def strIncludes (s pat : String) : Bool :=
  s.data.tails.any fun t => pat.data.isPrefixOf t

/-- JavaScript `o || d` for an optional string: the string when it is present
and non-empty (truthy), otherwise the default. -/
def jsOr (o : Option String) (d : String) : String :=
  match o with
  | some s => if s.data.isEmpty then d else s
  | none => d

/-- JavaScript truthiness of an optional string: present and non-empty. -/
def jsTruthy (o : Option String) : Bool :=
  match o with
  | some s => !s.data.isEmpty
  | none => false

/-- JavaScript `s.toLowerCase()` (ASCII range). -/
def jsToLower (s : String) : String := String.mk (s.data.map Char.toLower)

/-- JavaScript `s.toUpperCase()` (ASCII range). -/
def jsToUpper (s : String) : String := String.mk (s.data.map Char.toUpper)

/-- Accumulator form of JavaScript `s.split(',')`. -/
def jsSplitCommaAux : List Char → List Char → List String
  | acc, [] => [String.mk acc.reverse]
  | acc, c :: rest =>
    if c = ',' then String.mk acc.reverse :: jsSplitCommaAux [] rest
    else jsSplitCommaAux (c :: acc) rest

/-- JavaScript `s.split(',')`: always a non-empty list of pieces. -/
def jsSplitComma (s : String) : List String := jsSplitCommaAux [] s.data

/-- Provenance tag attached to every sub-result
(`'live' | 'fallback' | 'error' | 'mock'` in `travel_apis.ts`). -/
inductive Source
  | live
  | fallback
  | error
  | mock
deriving DecidableEq, Repr

/-- Generic API result structure of `travel_apis.ts`
(`{ success; data?; error?; source }`). -/
structure ApiResult (α : Type) where
  success : Bool
  data : Option α
  error : Option String
  source : Source
deriving DecidableEq, Repr

/-- Coordinate pair produced by geocoding (`{ lat; lng }`). -/
structure Coordinates where
  lat : Int
  lng : Int
deriving DecidableEq, Repr

/-- Payload of a successful HERE routing call
(`{ distance; duration; transportMethods }`, km / minutes). -/
structure RouteData where
  distance : Int
  duration : Int
  transportMethods : List String
deriving DecidableEq, Repr

/-- One normalized flight segment
(`{ departure; arrival; price; duration; airline }`). -/
structure FlightSegment where
  departure : String
  arrival : String
  price : Int
  duration : String
  airline : String
deriving DecidableEq, Repr

/-- Payload of the flight search (`{ segments; totalPrice }`). -/
structure FlightData where
  segments : List FlightSegment
  totalPrice : Int
deriving DecidableEq, Repr

/-- Payload of the visa lookup
(`{ required; type?; processingTime?; documents; notes? }`). -/
structure VisaData where
  required : Bool
  type : Option String
  processingTime : Option String
  documents : List String
  notes : Option String
deriving DecidableEq, Repr

/-- Visa-free table of `getVisaRequirements`. The current `travel_apis.ts`
writes the initializer as `{ /* ... same as before ... */ }`, referring to the
table spelled out in the previous revision of the same file (kept in the
repository), whose entries are embedded here verbatim. -/
def visaFreeCountries : String → Option (List String)
  | "American" => some ["UK", "Germany", "France", "Japan", "South Korea"]
  | "British" => some ["USA", "Canada", "Australia", "Germany", "France"]
  | "German" => some ["USA", "UK", "Canada", "Australia", "Japan"]
  | "Canadian" => some ["USA", "UK", "Germany", "France", "Australia"]
  | _ => none

/-- Fixed note attached to every mock visa answer. -/
def mockVisaNote : String :=
  "Note: This is example visa information. Always verify with official sources before travel."

/-- Document checklist of the visa-free branch (elided in the current file as
`[ /* ... */ ]`; entries from the previous revision kept in the repository). -/
def visaFreeDocuments : List String :=
  ["Valid passport (6+ months validity)", "Return flight tickets", "Proof of accommodation"]

/-- Document checklist of the visa-required branch (elided in the current file
as `[ /* ... */ ]`; entries from the previous revision kept in the repository). -/
def visaRequiredDocuments : List String :=
  ["Valid passport (6+ months validity)", "Completed visa application form",
   "Passport-sized photographs (2)", "Proof of accommodation booking",
   "Return flight tickets", "Bank statements (3 months)",
   "Travel insurance certificate", "Invitation letter (if applicable)",
   "Proof of employment/income"]

/-- `args.destination.split(',').pop()?.trim().toLowerCase() || args.destination.toLowerCase()`:
the trailing comma-separated token, lower-cased, or the whole lower-cased
destination when that token is empty. -/
def destinationCountryOf (destination : String) : String :=
  let token := jsToLower (jsTrim ((jsSplitComma destination).getLastD ""))
  if token.data.isEmpty then jsToLower destination else token

/-- The `isVisaFree` computation of `getVisaRequirements`: some entry of the
citizenship's visa-free list is a case-insensitive substring of the
destination-country string. -/
def isVisaFreeFor (citizenship destination : String) : Bool :=
  match visaFreeCountries citizenship with
  | some countries =>
    countries.any fun country => strIncludes (destinationCountryOf destination) (jsToLower country)
  | none => false

/-- Handler of the `getVisaRequirements` internal action (`travel_apis.ts`):
a pure lookup against `visaFreeCountries`, always `source: 'mock'`. -/
def getVisaRequirements (citizenship destination : String) : ApiResult VisaData :=
  if isVisaFreeFor citizenship destination then
    { success := true
      data := some { required := false, type := none, processingTime := none,
                     documents := visaFreeDocuments, notes := some mockVisaNote }
      error := none
      source := .mock }
  else
    { success := true
      data := some { required := true, type := some "Tourist Visa (example)",
                     processingTime := some "5-15 business days (example)",
                     documents := visaRequiredDocuments, notes := some mockVisaNote }
      error := none
      source := .mock }

/-- Word character of the JavaScript regex class `\w` (`[A-Za-z0-9_]`). -/
def isWordChar (c : Char) : Bool :=
  ('A' ≤ c && c ≤ 'Z') || ('a' ≤ c && c ≤ 'z') || ('0' ≤ c && c ≤ '9') || c == '_'

/-- ASCII uppercase letter (the regex class `[A-Z]`). -/
def isUpperAZ (c : Char) : Bool := 'A' ≤ c && c ≤ 'Z'

/-- Scan for the leftmost match of `\b([A-Z]{3})\b`: three uppercase letters
with a word boundary on each side. The first argument is the character
immediately before the scan position (`none` at the start of the string). -/
def findCodeAux : Option Char → List Char → Option String
  | prev, c₁ :: c₂ :: c₃ :: rest =>
    if isUpperAZ c₁ && isUpperAZ c₂ && isUpperAZ c₃ &&
       (match prev with | some p => !isWordChar p | none => true) &&
       (match rest with | r :: _ => !isWordChar r | [] => true) then
      some (String.mk [c₁, c₂, c₃])
    else
      findCodeAux (some c₁) (c₂ :: c₃ :: rest)
  | _, _ => none

/-- `location.match(/\b([A-Z]{3})\b/)`, reduced to the captured group of the
leftmost match when one exists. -/
def extract3 (location : String) : Option String := findCodeAux none location.data

/-- City-name → IATA-code table of `getAirportCode`, in source order
(JavaScript `Object.entries` iterates string keys in insertion order). -/
def commonCodes : List (String × String) :=
  [("new york", "JFK"), ("nyc", "JFK"), ("new york city", "JFK"),
   ("london", "LHR"), ("lon", "LHR"),
   ("paris", "CDG"), ("par", "CDG"),
   ("tokyo", "NRT"), ("tyo", "NRT"),
   ("sydney", "SYD"),
   ("dubai", "DXB"),
   ("singapore", "SIN"),
   ("hong kong", "HKG"),
   ("los angeles", "LAX"),
   ("chicago", "ORD"),
   ("frankfurt", "FRA"),
   ("amsterdam", "AMS"),
   ("madrid", "MAD"),
   ("rome", "FCO"),
   ("mumbai", "BOM"),
   ("delhi", "DEL"),
   ("beijing", "PEK"),
   ("shanghai", "PVG"),
   ("toronto", "YYZ"),
   ("atlanta", "ATL"),
   ("vancouver", "YVR")]

/-- First table entry whose city name is a substring of the lower-cased
location (the `for (const [city, code] of Object.entries(commonCodes))` loop). -/
def tableLookup (location : String) : Option String :=
  (commonCodes.find? fun p => strIncludes (jsToLower location) p.1).map fun p => p.2

/-- The `getAirportCode` helper inside `searchFlights` (`travel_apis.ts`):
direct 3-letter-code regex first, then the city table, then a verbatim
3-character all-uppercase location, else the placeholder `"XXX"`. -/
def getAirportCode (location : String) : String :=
  match extract3 location with
  | some code => code
  | none =>
    match tableLookup location with
    | some code => code
    | none =>
      if location.data.length = 3 ∧ jsToUpper location = location then location
      else "XXX"

/-- One Amadeus flight segment as parsed from the provider response. -/
structure ASegment where
  departure : String
  arrival : String
  carrier : String
  duration : String
deriving DecidableEq, Repr

/-- One Amadeus itinerary (`{ duration; segments }`). -/
structure AItinerary where
  duration : String
  segments : List ASegment
deriving DecidableEq, Repr

/-- One Amadeus flight offer (`{ price.total; itineraries }`); the decimal
price string, already `parseFloat`ed, is modelled as an integer. -/
structure AOffer where
  priceTotal : Int
  itineraries : List AItinerary
deriving DecidableEq, Repr

/-- Outcome of the Amadeus flight-offers HTTP exchange: a non-2xx status with
its body text, a parsed offers list, or a thrown transport/parse error. -/
inductive FlightHttp
  | notOk (status : Nat) (body : String)
  | ok (offers : List AOffer)
  | thrown (msg : String)
deriving DecidableEq, Repr

/-- External-world inputs of one `searchFlights` run: the token-action result
and the flight-offers HTTP outcome. -/
structure FlightEnv where
  tokenResult : ApiResult String
  http : FlightHttp
deriving DecidableEq, Repr

/-- Empty flight payload (`{ segments: [], totalPrice: 0 }`). -/
def emptyFlightData : FlightData := { segments := [], totalPrice := 0 }

/-- Handler of the `searchFlights` internal action (`travel_apis.ts`),
as a function of its HTTP environment. The second component records the
airport-code pair the flight-offers API was called with, `none` when the
handler returned before issuing that call. -/
def searchFlights (env : FlightEnv) (origin destination _departureDate : String) :
    ApiResult FlightData × Option (String × String) :=
  if !(env.tokenResult.success && jsTruthy env.tokenResult.data) then
    ({ success := false,
       error := some (jsOr env.tokenResult.error "Amadeus token acquisition failed."),
       source := .error, data := some emptyFlightData }, none)
  else
    let originCode := getAirportCode origin
    let destinationCode := getAirportCode destination
    if originCode = "XXX" ∨ destinationCode = "XXX" then
      let m₀ := "Could not determine airport code for: "
      let m₁ := if originCode = "XXX" then m₀ ++ "origin \"" ++ origin ++ "\" " else m₀
      let m₂ := if destinationCode = "XXX" then m₁ ++ "destination \"" ++ destination ++ "\"" else m₁
      ({ success := false,
         error := some (jsTrim m₂ ++ ". Flight search cannot proceed."),
         source := .error, data := some emptyFlightData }, none)
    else
      match env.http with
      | .notOk status body =>
        ({ success := false,
           error := some ("Amadeus Flight API error: " ++ toString status ++ " - " ++ body),
           source := .error, data := some emptyFlightData },
         some (originCode, destinationCode))
      | .thrown msg =>
        ({ success := false,
           error := some (jsOr (some msg) "Amadeus Flight API processing error."),
           source := .error, data := some emptyFlightData },
         some (originCode, destinationCode))
      | .ok [] =>
        ({ success := true, data := some emptyFlightData,
           error := some "No flight offers found for the given criteria.",
           source := .live },
         some (originCode, destinationCode))
      | .ok (bestOffer :: _) =>
        match bestOffer.itineraries with
        | [] =>
          -- `bestOffer.itineraries[0].segments` raises a TypeError in the
          -- source; the surrounding catch converts it into this error result.
          ({ success := false,
             error := some "Amadeus Flight API processing error.",
             source := .error, data := some emptyFlightData },
           some (originCode, destinationCode))
        | itinerary :: _ =>
          let n : Int := itinerary.segments.length
          let segments := itinerary.segments.map fun s =>
            ({ departure := s.departure, arrival := s.arrival,
               price := bestOffer.priceTotal / n,
               duration := s.duration, airline := s.carrier } : FlightSegment)
          ({ success := true,
             data := some { segments := segments, totalPrice := bestOffer.priceTotal },
             error := none, source := .live },
           some (originCode, destinationCode))

/-- Payload of the no-route answer of `getHereRoute`
(`{ distance: 0, duration: 0, transportMethods: ['unknown'] }`). -/
def unknownRouteData : RouteData :=
  { distance := 0, duration := 0, transportMethods := ["unknown"] }

/-- The no-route-found result of `getHereRoute` (`travel_apis.ts`): a reachable
HERE response with an empty `routes`/`sections` array. -/
def noRouteFoundResult : ApiResult RouteData :=
  { success := false,
    error := some "No route found by HERE API with the given coordinates.",
    source := .error, data := some unknownRouteData }

/-- Border crossing entry of `RouteDataInfo` (`routes.ts`); the aggregator
only ever stores an empty list of these. -/
structure BorderCrossing where
  name : String
  lat : Int
  lng : Int
deriving DecidableEq, Repr

/-- `RouteDataInfo` of `routes.ts`. -/
structure RouteDataInfo where
  distance : Int
  duration : Int
  transportMethods : List String
  borderCrossings : List BorderCrossing
  source : Source
  error : Option String
deriving DecidableEq, Repr

/-- `FlightDataInfo` of `routes.ts`. -/
structure FlightDataInfo where
  segments : List FlightSegment
  totalPrice : Int
  source : Source
  error : Option String
deriving DecidableEq, Repr

/-- `VisaRequirementsInfo` of `routes.ts`. -/
structure VisaRequirementsInfo where
  required : Bool
  type : Option String
  processingTime : Option String
  documents : List String
  notes : Option String
  source : Source
  error : Option String
deriving DecidableEq, Repr

/-- Arguments of the `generateTravelPlan` action. -/
structure GenArgs where
  citizenship : String
  residencyVisa : String
  departureLocation : String
  destinationLocation : String
  transportMode : String
deriving DecidableEq, Repr

/-- Await points of the aggregator's `try` block at which an infrastructure or
provider exception can escape the per-call guards: before the route block
finishes (geocoding/routing `runAction`), before the flight block finishes,
before the visa block finishes, or during the narrative (LLM) call. -/
inductive ThrowStage
  | beforeRoute
  | beforeFlight
  | beforeVisa
  | atLlm
deriving DecidableEq, Repr

/-- External-world inputs of one `generateTravelPlan` run: the results of the
two geocoding calls and the routing call, the flight-search environment, the
LLM completion content (`choices[0]?.message?.content`), the stage at which an
uncaught exception occurs (with `error.message`), if any, and the persistence
environment (authenticated user, database failure, new record id). -/
structure GenEnv where
  depGeo : ApiResult Coordinates
  destGeo : ApiResult Coordinates
  hereRoute : ApiResult RouteData
  flightEnv : FlightEnv
  departureDateStr : String
  llmContent : Option String
  throwAt : Option (ThrowStage × String)
  auth : Option String
  dbError : Option String
  newRouteId : Nat
deriving DecidableEq, Repr

/-- Composed geocoding failure text of `routes.ts`
(`"Geocoding failed: "` plus a part per failed location). -/
def geoFailureMessage (dep dest : ApiResult Coordinates) : String :=
  let m₀ := "Geocoding failed: "
  let m₁ := if !dep.success then m₀ ++ "Departure: " ++ jsOr dep.error "Unknown error" ++ ". " else m₀
  if !dest.success then m₁ ++ "Destination: " ++ jsOr dest.error "Unknown error" ++ "." else m₁

/-- Dedicated user-facing message for a no-route-found condition
(`routes.ts`, the `routeErrorMsg.includes("No route found")` branch). -/
def inaccessibleMessage (transportMode : String) : String :=
  "Destination may be inaccessible by the selected mode of transport (" ++
    transportMode ++ "). Route details N/A."

/-- Route block of the aggregator's `try` (`routes.ts` lines 147-177):
the `finalRouteData` value and the status-message text appended so far. -/
def routeStage (env : GenEnv) (args : GenArgs) : RouteDataInfo × String :=
  if env.depGeo.success && env.depGeo.data.isSome &&
     env.destGeo.success && env.destGeo.data.isSome then
    if env.hereRoute.success && env.hereRoute.data.isSome then
      let d := env.hereRoute.data.getD unknownRouteData
      ({ distance := d.distance, duration := d.duration,
         transportMethods := d.transportMethods, borderCrossings := [],
         source := env.hereRoute.source, error := env.hereRoute.error }, "")
    else
      let m₀ := jsOr env.hereRoute.error "Could not fetch live route data."
      let m := if strIncludes m₀ "No route found" then inaccessibleMessage args.transportMode else m₀
      ({ distance := 0, duration := 0, transportMethods := [args.transportMode],
         borderCrossings := [], source := .error, error := some m },
       "Route information error: " ++ m ++ " ")
  else
    let g := geoFailureMessage env.depGeo env.destGeo
    ({ distance := 0, duration := 0, transportMethods := [args.transportMode],
       borderCrossings := [], source := .error,
       error := some (jsOr (some (jsTrim g)) "Geocoding for routing failed.") }, g)

/-- Flight block of the aggregator's `try` (`routes.ts` lines 186-194):
the `finalFlightData` value and the status fragment this block appends. -/
def mkFlightInfo (r : ApiResult FlightData) : FlightDataInfo × String :=
  if r.success && r.data.isSome then
    let d := r.data.getD emptyFlightData
    ({ segments := d.segments, totalPrice := d.totalPrice,
       source := r.source, error := r.error },
     if jsTruthy r.error && r.source == .live then
       "Flight information note: " ++ (r.error.getD "") ++ " "
     else "")
  else
    ({ segments := [], totalPrice := 0, source := .error,
       error := some (jsOr r.error "Unknown flight error") },
     "Flight information error: " ++ jsOr r.error "Could not fetch live flight data." ++ " ")

/-- Arbitrary visa payload standing for the record the JavaScript spread
`...(visaResult.data!)` would build from an absent `data`; `visaTotal` below
shows the lookup always supplies `data`, so this value is never used. -/
def absentVisaData : VisaData :=
  { required := true, type := none, processingTime := none, documents := [], notes := none }

/-- Visa block of the aggregator's `try` (`routes.ts` lines 196-203):
the `finalVisaRequirements` value and the status fragment this block appends
(the mock note, when present and truthy). -/
def mkVisaInfo (r : ApiResult VisaData) : VisaRequirementsInfo × String :=
  let d := r.data.getD absentVisaData
  ({ required := d.required, type := d.type, processingTime := d.processingTime,
     documents := d.documents, notes := d.notes, source := r.source, error := r.error },
   if r.source == .mock && jsTruthy (r.data.bind fun v => v.notes) then
     ((r.data.bind fun v => v.notes).getD "") ++ " "
   else "")

/-- Cost block of the aggregator's `try` (`routes.ts` lines 205-211):
`totalEstimatedCost` and the cost-is-estimated status fragment. -/
def costStage (flight : FlightDataInfo) : Int × String :=
  if flight.source == .live && flight.totalPrice > 0 then
    (500 + flight.totalPrice, "")
  else if flight.source != .live then
    (500, "Total cost is an estimate as live flight prices were unavailable. ")
  else
    (500, "")

/-- Generic route placeholder of the top-level catch (`routes.ts` line 232). -/
def catchRouteDefault (transportMode : String) : RouteDataInfo :=
  { distance := 0, duration := 0, transportMethods := [transportMode],
    borderCrossings := [], source := .error, error := some "Overall plan generation failed" }

/-- Generic flight placeholder of the top-level catch (`routes.ts` line 233). -/
def catchFlightDefault : FlightDataInfo :=
  { segments := [], totalPrice := 0, source := .error,
    error := some "Overall plan generation failed" }

/-- Generic visa placeholder of the top-level catch (`routes.ts` line 234). -/
def catchVisaDefault : VisaRequirementsInfo :=
  { required := true, type := none, processingTime := none,
    documents := ["Valid passport"], notes := some "Visa info unavailable due to error.",
    source := .error, error := some "Overall plan generation failed" }

/-- Fixed apology narrative of the top-level catch (`routes.ts` line 230). -/
def apologyNarrative : String :=
  "There was a critical issue generating the travel plan..."

/-- State the aggregator persists and returns: all `final*` locals of
`generateTravelPlan` once the `try`/`catch` has finished. -/
structure PlanState where
  routeData : RouteDataInfo
  flightData : FlightDataInfo
  visaRequirements : VisaRequirementsInfo
  aiResponse : String
  totalEstimatedCost : Int
  statusMessage : String
deriving DecidableEq, Repr

/-- Top-level catch of `generateTravelPlan` (`routes.ts` lines 227-236):
prepends the overall-failure notice, sets the apology narrative, fills any
still-unset sub-result with its generic placeholder, and re-evaluates the cost
with the conditional of line 235. -/
def catchState (args : GenArgs) (errMsg : String)
    (routeSoFar : Option RouteDataInfo) (flightSoFar : Option FlightDataInfo)
    (visaSoFar : Option VisaRequirementsInfo) (msgSoFar : String) (costSoFar : Int) :
    PlanState :=
  let flight := flightSoFar.getD catchFlightDefault
  let cost :=
    if costSoFar = 500 ∧ (flight.source ≠ .live ∨ flight.totalPrice = 0) then (500 : Int)
    else costSoFar
  { routeData := routeSoFar.getD (catchRouteDefault args.transportMode)
    flightData := flight
    visaRequirements := visaSoFar.getD catchVisaDefault
    aiResponse := apologyNarrative
    totalEstimatedCost := cost
    statusMessage := jsTrim ("Overall plan generation failed: " ++ errMsg ++ ". " ++ msgSoFar) }

/-- The `try`/`catch` body of `generateTravelPlan` (`routes.ts` lines 144-236)
as a function of the external environment: route, flight, visa, cost and
status-message blocks in source order, with the top-level catch applied at the
stage where an uncaught exception, if any, occurs. -/
def mkPlanCore (env : GenEnv) (args : GenArgs) : PlanState :=
  let routeMsg := routeStage env args
  let flightResult := (searchFlights env.flightEnv args.departureLocation
    args.destinationLocation env.departureDateStr).1
  let flightMsg := mkFlightInfo flightResult
  let visaResult := getVisaRequirements args.citizenship args.destinationLocation
  let visaMsg := mkVisaInfo visaResult
  let msg₁ := routeMsg.2
  let msg₂ := msg₁ ++ flightMsg.2
  let msg₃ := msg₂ ++ visaMsg.2
  let costMsg := costStage flightMsg.1
  let msg₄ := jsTrim (msg₃ ++ costMsg.2)
  match env.throwAt with
  | none =>
    { routeData := routeMsg.1, flightData := flightMsg.1, visaRequirements := visaMsg.1,
      aiResponse := jsOr env.llmContent "AI could not generate a response.",
      totalEstimatedCost := costMsg.1, statusMessage := msg₄ }
  | some (.beforeRoute, e) => catchState args e none none none "" 500
  | some (.beforeFlight, e) => catchState args e (some routeMsg.1) none none msg₁ 500
  | some (.beforeVisa, e) => catchState args e (some routeMsg.1) (some flightMsg.1) none msg₂ 500
  | some (.atLlm, e) =>
    catchState args e (some routeMsg.1) (some flightMsg.1) (some visaMsg.1) msg₄ costMsg.1

/-- Argument record of the `saveRoute` mutation (`routes.ts`). -/
structure SaveArgs where
  citizenship : String
  residencyVisa : String
  departureLocation : String
  destinationLocation : String
  transportMode : String
  aiResponse : Option String
  routeData : Option RouteDataInfo
  flightData : Option FlightDataInfo
  visaRequirements : Option VisaRequirementsInfo
  totalEstimatedCost : Option Int
  planStatusMessage : Option String
deriving DecidableEq, Repr

/-- Document the `saveRoute` mutation inserts into the `routes` table. -/
structure RouteRecord where
  userId : String
  citizenship : String
  residencyVisa : String
  departureLocation : String
  destinationLocation : String
  transportMode : String
  aiResponse : Option String
  routeData : Option RouteDataInfo
  flightData : Option FlightDataInfo
  visaRequirements : Option VisaRequirementsInfo
  totalEstimatedCost : Option Int
  planStatusMessage : Option String
deriving DecidableEq, Repr

/-- Handler of the `saveRoute` mutation (`routes.ts` lines 91-111): throws on a
missing authenticated user, otherwise inserts one record built field-for-field
from its arguments. `dbError` models an insert-time database failure; the
inserted record is returned alongside the id so that the persisted document is
observable. -/
def saveRoute (auth : Option String) (dbError : Option String) (newId : Nat)
    (args : SaveArgs) : Except String (Nat × RouteRecord) :=
  match auth with
  | none => .error "User not authenticated"
  | some userId =>
    match dbError with
    | some e => .error e
    | none =>
      .ok (newId,
        { userId := userId,
          citizenship := args.citizenship, residencyVisa := args.residencyVisa,
          departureLocation := args.departureLocation,
          destinationLocation := args.destinationLocation,
          transportMode := args.transportMode,
          aiResponse := args.aiResponse,
          routeData := args.routeData, flightData := args.flightData,
          visaRequirements := args.visaRequirements,
          totalEstimatedCost := args.totalEstimatedCost,
          planStatusMessage := args.planStatusMessage })

/-- Object `generateTravelPlan` returns to its caller. -/
structure PlanResult where
  routeId : Nat
  aiResponse : String
  routeData : RouteDataInfo
  flightData : FlightDataInfo
  visaRequirements : VisaRequirementsInfo
  totalEstimatedCost : Int
  planStatusMessage : Option String
deriving DecidableEq, Repr

/-- `saveRoute` argument object built by `generateTravelPlan`
(`routes.ts` lines 238-250); `planStatusMessage || undefined` drops an empty
message. -/
def planSaveArgs (args : GenArgs) (s : PlanState) : SaveArgs :=
  { citizenship := args.citizenship, residencyVisa := args.residencyVisa,
    departureLocation := args.departureLocation,
    destinationLocation := args.destinationLocation,
    transportMode := args.transportMode,
    aiResponse := some s.aiResponse,
    routeData := some s.routeData, flightData := some s.flightData,
    visaRequirements := some s.visaRequirements,
    totalEstimatedCost := some s.totalEstimatedCost,
    planStatusMessage := if s.statusMessage.data.isEmpty then none else some s.statusMessage }

/-- Handler of the `generateTravelPlan` action (`routes.ts` lines 114-262):
runs the guarded `try`/`catch` body, persists via `saveRoute` (the one step
whose failure propagates to the caller), and returns the composite plan. -/
def generateTravelPlan (env : GenEnv) (args : GenArgs) : Except String PlanResult :=
  let s := mkPlanCore env args
  match saveRoute env.auth env.dbError env.newRouteId (planSaveArgs args s) with
  | .error e => .error e
  | .ok (routeId, _) =>
    .ok { routeId := routeId,
          aiResponse := s.aiResponse,
          routeData := s.routeData, flightData := s.flightData,
          visaRequirements := s.visaRequirements,
          totalEstimatedCost := s.totalEstimatedCost,
          planStatusMessage := if s.statusMessage.data.isEmpty then none else some s.statusMessage }

/-- Record `generateTravelPlan` leaves in the database, when persistence
succeeds. -/
def persistedRecord (env : GenEnv) (args : GenArgs) : Option RouteRecord :=
  match saveRoute env.auth env.dbError env.newRouteId (planSaveArgs args (mkPlanCore env args)) with
  | .error _ => none
  | .ok (_, record) => some record

/-- JavaScript `s.startsWith(p)`, used to state that a notice is prepended. -/
def strStartsWith (s p : String) : Bool := p.data.isPrefixOf s.data

theorem strIncludes_iff (s p : String) : strIncludes s p = true ↔ p.data <:+: s.data := by
  unfold strIncludes
  rw [List.any_eq_true]
  constructor
  · rintro ⟨t, ht, hp⟩
    rw [List.mem_tails] at ht
    rw [List.isPrefixOf_iff_prefix] at hp
    exact List.infix_iff_prefix_suffix.mpr ⟨t, hp, ht⟩
  · intro h
    obtain ⟨t, hp, ht⟩ := List.infix_iff_prefix_suffix.mp h
    exact ⟨t, (List.mem_tails _ _).mpr ht, List.isPrefixOf_iff_prefix.mpr hp⟩

theorem strStartsWith_iff (s p : String) : strStartsWith s p = true ↔ p.data <+: s.data :=
  List.isPrefixOf_iff_prefix

theorem dropWhile_all_of_all {l : List Char}
    (h : ∀ x ∈ l.dropWhile jsWhitespace, jsWhitespace x = true) :
    ∀ x ∈ l, jsWhitespace x = true := by
  induction l with
  | nil => simp
  | cons a t ih =>
    rw [List.dropWhile_cons] at h
    by_cases ha : jsWhitespace a = true
    · rw [if_pos ha] at h
      intro x hx
      rcases List.mem_cons.mp hx with rfl | hx
      · exact ha
      · exact ih h x hx
    · rw [if_neg ha] at h
      exact absurd (h a (List.mem_cons_self a t)) ha

theorem trimChars_ne_nil {l : List Char} {c : Char} (hc : c ∈ l)
    (hw : jsWhitespace c = false) : trimChars l ≠ [] := by
  intro h
  unfold trimChars at h
  rw [List.reverse_eq_nil_iff, List.dropWhile_eq_nil_iff] at h
  have h' : ∀ x ∈ l.dropWhile jsWhitespace, jsWhitespace x = true := by
    intro x hx
    exact h x (List.mem_reverse.mpr hx)
  have := dropWhile_all_of_all h' c hc
  rw [hw] at this
  exact Bool.false_ne_true this

theorem trimChars_append_infix (m t : List Char) (a : Char) (q' : List Char)
    (ha : jsWhitespace a = false)
    (hl : jsWhitespace ((a :: q').reverse.headD 'A') = false)
    (ht : ∀ c ∈ t, jsWhitespace c = true) :
    (a :: q') <:+: trimChars (m ++ (a :: q') ++ t) := by
  set q := a :: q' with hqdef
  obtain ⟨b, rest, hbr⟩ := List.exists_cons_of_ne_nil (show q.reverse ≠ [] by simp [hqdef])
  have hb : jsWhitespace b = false := by
    rw [hbr] at hl
    simpa using hl
  have hfront : (m ++ q ++ t).dropWhile jsWhitespace =
      (if (m.dropWhile jsWhitespace).isEmpty then [] else m.dropWhile jsWhitespace) ++ (q ++ t) := by
    rw [List.append_assoc, List.dropWhile_append]
    have hq : (q ++ t).dropWhile jsWhitespace = q ++ t := by
      rw [hqdef, List.cons_append, List.dropWhile_cons, if_neg (by simp [ha])]
    rw [hq]
    split
    · simp
    · simp
  set m' := if (m.dropWhile jsWhitespace).isEmpty then ([] : List Char) else m.dropWhile jsWhitespace
  have htrev : t.reverse.dropWhile jsWhitespace = [] := by
    rw [List.dropWhile_eq_nil_iff]
    intro x hx
    exact ht x (List.mem_reverse.mp hx)
  have hqrev : (q.reverse ++ m'.reverse).dropWhile jsWhitespace = q.reverse ++ m'.reverse := by
    rw [hbr, List.cons_append, List.dropWhile_cons, if_neg (by simp [hb])]
  unfold trimChars
  rw [hfront]
  rw [show (m' ++ (q ++ t)).reverse = t.reverse ++ (q.reverse ++ m'.reverse) by
    simp [List.reverse_append, List.append_assoc]]
  rw [List.dropWhile_append, htrev]
  simp only [List.isEmpty_nil, if_true]
  rw [hqrev, List.reverse_append, List.reverse_reverse, List.reverse_reverse]
  exact (List.suffix_append m' q).isInfix

theorem trimChars_append_of_head (a : Char) (q' r : List Char)
    (ha : jsWhitespace a = false)
    (hl : jsWhitespace ((a :: q').reverse.headD 'A') = false) :
    (a :: q') <+: trimChars ((a :: q') ++ r) := by
  set q := a :: q' with hqdef
  obtain ⟨b, rest, hbr⟩ := List.exists_cons_of_ne_nil (show q.reverse ≠ [] by simp [hqdef])
  have hb : jsWhitespace b = false := by
    rw [hbr] at hl
    simpa using hl
  have hfront : (q ++ r).dropWhile jsWhitespace = q ++ r := by
    rw [hqdef, List.cons_append, List.dropWhile_cons, if_neg (by simp [ha])]
  unfold trimChars
  rw [hfront, List.reverse_append, List.dropWhile_append]
  split
  · have hqrev : q.reverse.dropWhile jsWhitespace = q.reverse := by
      rw [hbr, List.dropWhile_cons, if_neg (by simp [hb])]
    rw [hqrev, List.reverse_reverse]
  · rw [List.reverse_append, List.reverse_reverse]
    exact List.prefix_append q _

theorem prefix_jsTrim (q : String) (r : List Char) (hq : q.data ≠ [])
    (hh : jsWhitespace (q.data.headD 'A') = false)
    (hl : jsWhitespace (q.data.reverse.headD 'A') = false) :
    q.data <+: trimChars (q.data ++ r) := by
  obtain ⟨a, q', hq'⟩ := List.exists_cons_of_ne_nil hq
  rw [hq'] at hh hl ⊢
  exact trimChars_append_of_head a q' r (by simpa using hh) hl

theorem infix_jsTrim (q : String) (m t : List Char) (hq : q.data ≠ [])
    (hh : jsWhitespace (q.data.headD 'A') = false)
    (hl : jsWhitespace (q.data.reverse.headD 'A') = false)
    (ht : ∀ c ∈ t, jsWhitespace c = true) :
    q.data <:+: trimChars (m ++ q.data ++ t) := by
  obtain ⟨a, q', hq'⟩ := List.exists_cons_of_ne_nil hq
  rw [hq'] at hh hl ⊢
  exact trimChars_append_infix m t a q' (by simpa using hh) hl ht

theorem infix_dropWhile (a : Char) (q' l : List Char) (ha : jsWhitespace a = false)
    (h : (a :: q') <:+: l) : (a :: q') <:+: l.dropWhile jsWhitespace := by
  obtain ⟨x, y, hxy⟩ := h
  subst hxy
  induction x with
  | nil =>
    rw [show ([] : List Char) ++ (a :: q') ++ y = a :: (q' ++ y) by simp]
    rw [List.dropWhile_cons, if_neg (by simp [ha])]
    exact ⟨[], y, by simp⟩
  | cons b x' ih =>
    have hsh : (b :: x') ++ (a :: q') ++ y = b :: (x' ++ (a :: q') ++ y) := by simp
    rw [hsh, List.dropWhile_cons]
    split
    · exact ih
    · exact ⟨b :: x', y, hsh⟩

theorem infix_trimChars (a : Char) (q' l : List Char) (ha : jsWhitespace a = false)
    (hl : jsWhitespace ((a :: q').reverse.headD 'A') = false)
    (h : (a :: q') <:+: l) : (a :: q') <:+: trimChars l := by
  have h1 := infix_dropWhile a q' l ha h
  obtain ⟨b, rest, hbr⟩ := List.exists_cons_of_ne_nil
    (show (a :: q').reverse ≠ [] by simp)
  have hb : jsWhitespace b = false := by
    rw [hbr] at hl
    simpa using hl
  have h2 : (a :: q').reverse <:+: (l.dropWhile jsWhitespace).reverse :=
    List.reverse_infix.mpr h1
  rw [hbr] at h2
  have h3 := infix_dropWhile b rest _ hb h2
  rw [← hbr] at h3
  have h4 : (a :: q') <:+: ((l.dropWhile jsWhitespace).reverse.dropWhile jsWhitespace).reverse := by
    rw [← List.reverse_reverse (a :: q')]
    exact List.reverse_infix.mpr h3
  exact h4

theorem strIncludes_jsTrim (s p : String) (hne : p.data ≠ [])
    (hh : jsWhitespace (p.data.headD 'A') = false)
    (hl : jsWhitespace (p.data.reverse.headD 'A') = false)
    (h : strIncludes s p = true) : strIncludes (jsTrim s) p = true := by
  rw [strIncludes_iff] at h ⊢
  obtain ⟨a, q', hq'⟩ := List.exists_cons_of_ne_nil hne
  rw [hq'] at hh hl h ⊢
  exact infix_trimChars a q' s.data (by simpa using hh) hl h

theorem strIncludes_of_decomp (s p a b : String) (h : s.data = a.data ++ p.data ++ b.data) :
    strIncludes s p = true := by
  rw [strIncludes_iff, h]
  exact ⟨a.data, b.data, rfl⟩

theorem getVisaRequirements_shape (c d : String) :
    ∃ v : VisaData, getVisaRequirements c d =
      { success := true, data := some v, error := none, source := .mock } ∧
      v.notes = some mockVisaNote ∧ v.documents ≠ [] := by
  unfold getVisaRequirements
  split
  · refine ⟨_, rfl, rfl, ?_⟩
    simp [visaFreeDocuments]
  · refine ⟨_, rfl, rfl, ?_⟩
    simp [visaRequiredDocuments]

theorem mkVisaInfo_frag (c d : String) :
    (mkVisaInfo (getVisaRequirements c d)).2 = mockVisaNote ++ " " := by
  obtain ⟨v, hv, hnotes, -⟩ := getVisaRequirements_shape c d
  rw [hv]
  simp [mkVisaInfo, hnotes, jsTruthy, mockVisaNote]

theorem mkVisaInfo_source (c d : String) :
    (mkVisaInfo (getVisaRequirements c d)).1.source = .mock ∧
    (mkVisaInfo (getVisaRequirements c d)).1.error = none := by
  obtain ⟨v, hv, -, -⟩ := getVisaRequirements_shape c d
  rw [hv]
  unfold mkVisaInfo
  exact ⟨rfl, rfl⟩

theorem costStage_eq_add (f : FlightDataInfo) (h1 : f.source = .live) (h2 : 0 < f.totalPrice) :
    (costStage f).1 = 500 + f.totalPrice := by
  unfold costStage
  rw [if_pos (by simp [h1, h2])]

theorem costStage_eq_base (f : FlightDataInfo) (h : ¬(f.source = .live ∧ 0 < f.totalPrice)) :
    (costStage f).1 = 500 := by
  unfold costStage
  rw [if_neg (by simpa [not_and, decide_eq_true_eq] using h)]
  split <;> rfl

theorem costStage_ge (f : FlightDataInfo) : 500 ≤ (costStage f).1 := by
  by_cases h : f.source = .live ∧ 0 < f.totalPrice
  · rw [costStage_eq_add f h.1 h.2]
    omega
  · rw [costStage_eq_base f h]

theorem costStage_frag (f : FlightDataInfo) (h : f.source ≠ .live) :
    (costStage f).2 = "Total cost is an estimate as live flight prices were unavailable. " := by
  unfold costStage
  rw [if_neg (by simp [h]), if_pos (by simp [h])]

theorem catchState_cost (args : GenArgs) (eMsg : String)
    (r : Option RouteDataInfo) (f : Option FlightDataInfo) (v : Option VisaRequirementsInfo)
    (m : String) (c : Int) :
    (catchState args eMsg r f v m c).totalEstimatedCost = c := by
  unfold catchState
  dsimp only
  split
  · next h => exact h.1.symm
  · rfl

theorem catchState_message (args : GenArgs) (eMsg : String)
    (r : Option RouteDataInfo) (f : Option FlightDataInfo) (v : Option VisaRequirementsInfo)
    (m : String) (c : Int) :
    strStartsWith (catchState args eMsg r f v m c).statusMessage
      "Overall plan generation failed:" = true ∧
    (catchState args eMsg r f v m c).statusMessage.data ≠ [] := by
  have hdata : ("Overall plan generation failed: " ++ eMsg ++ ". " ++ m).data
      = "Overall plan generation failed:".data ++ ((' ' :: eMsg.data) ++ ". ".data ++ m.data) := by
    simp [String.data_append, List.append_assoc]
  have hpre : "Overall plan generation failed:".data <+:
      trimChars (("Overall plan generation failed: " ++ eMsg ++ ". " ++ m).data) := by
    rw [hdata]
    exact prefix_jsTrim "Overall plan generation failed:" _ (by decide) (by decide) (by decide)
  constructor
  · rw [strStartsWith_iff]
    exact hpre
  · intro hnil
    have : "Overall plan generation failed:".data <+: ([] : List Char) := by
      have he : (catchState args eMsg r f v m c).statusMessage.data
          = trimChars (("Overall plan generation failed: " ++ eMsg ++ ". " ++ m).data) := rfl
      rw [he] at hnil
      rw [← hnil]
      exact hpre
    rw [List.prefix_nil] at this
    exact absurd this (by decide)

theorem mkPlanCore_noThrow (env : GenEnv) (args : GenArgs) (h : env.throwAt = none) :
    mkPlanCore env args =
      { routeData := (routeStage env args).1
        flightData := (mkFlightInfo ((searchFlights env.flightEnv args.departureLocation
          args.destinationLocation env.departureDateStr).1)).1
        visaRequirements := (mkVisaInfo (getVisaRequirements args.citizenship
          args.destinationLocation)).1
        aiResponse := jsOr env.llmContent "AI could not generate a response."
        totalEstimatedCost := (costStage (mkFlightInfo ((searchFlights env.flightEnv
          args.departureLocation args.destinationLocation env.departureDateStr).1)).1).1
        statusMessage := jsTrim ((routeStage env args).2 ++
          (mkFlightInfo ((searchFlights env.flightEnv args.departureLocation
            args.destinationLocation env.departureDateStr).1)).2 ++
          (mkVisaInfo (getVisaRequirements args.citizenship args.destinationLocation)).2 ++
          (costStage (mkFlightInfo ((searchFlights env.flightEnv args.departureLocation
            args.destinationLocation env.departureDateStr).1)).1).2) } := by
  unfold mkPlanCore
  rw [h]

/-- Successful geocoding fixture. -/
def liveGeoFixture : ApiResult Coordinates :=
  { success := true, data := some { lat := 51, lng := 0 }, error := none, source := .live }

/-- Failed geocoding fixture (the zero-matches answer of the geocoder). -/
def failedGeoFixture : ApiResult Coordinates :=
  { success := false, data := none,
    error := some "No coordinates found for \"Atlantis\".", source := .error }

/-- Successful routing fixture. -/
def liveRouteFixture : ApiResult RouteData :=
  { success := true, data := some { distance := 343, duration := 300, transportMethods := ["car"] },
    error := none, source := .live }

/-- Successful Amadeus token fixture. -/
def liveTokenFixture : ApiResult String :=
  { success := true, data := some "token-1", error := none, source := .live }

/-- Flight environment whose offers call succeeds with zero offers. -/
def zeroOffersFlightEnv : FlightEnv := { tokenResult := liveTokenFixture, http := .ok [] }

/-- One-segment itinerary of the live offer fixture. -/
def sampleItinerary : AItinerary :=
  { duration := "PT9H50M",
    segments := [{ departure := "LHR", arrival := "CDG", carrier := "BA", duration := "PT1H20M" }] }

/-- One live 800-unit offer with a single one-segment itinerary. -/
def sampleOffer : AOffer := { priceTotal := 800, itineraries := [sampleItinerary] }

/-- Flight environment whose offers call succeeds with one live offer. -/
def liveOfferFlightEnv : FlightEnv := { tokenResult := liveTokenFixture, http := .ok [sampleOffer] }

/-- Request fixture used by the concrete evaluations below. -/
def sampleArgs : GenArgs :=
  { citizenship := "American", residencyVisa := "Citizen",
    departureLocation := "London", destinationLocation := "Paris, France",
    transportMode := "car" }

/-- Environment fixture: all providers healthy, flight search finds zero
offers, persistence available, no exception. -/
def baseEnv : GenEnv :=
  { depGeo := liveGeoFixture, destGeo := liveGeoFixture, hereRoute := liveRouteFixture,
    flightEnv := zeroOffersFlightEnv, departureDateStr := "2026-10-18",
    llmContent := some "Here is your travel advice.", throwAt := none,
    auth := some "user-1", dbError := none, newRouteId := 7 }

/-- Environment fixture: live flight offer found, then the narrative call
throws; persistence still available. -/
def llmThrowEnv : GenEnv :=
  { baseEnv with
    flightEnv := liveOfferFlightEnv,
    throwAt := some (.atLlm, "LLM request failed") }

/-- C10: the aggregator dereferences `visaResult.data!` unchecked; this is safe
because `getVisaRequirements` is total: for every citizenship and destination
it returns `success = true` with a `data` record present, no error, and
source `mock` — it takes no error path. -/
theorem visaLookupTotal (c d : String) :
    (getVisaRequirements c d).success = true ∧
    (getVisaRequirements c d).data.isSome = true ∧
    (getVisaRequirements c d).error = none ∧
    (getVisaRequirements c d).source = Source.mock := by
  obtain ⟨v, hv, -, -⟩ := getVisaRequirements_shape c d
  rw [hv]
  exact ⟨rfl, rfl, rfl, rfl⟩

/-- Visa-free rule exactly as the claim words it: the destination's trailing
comma-separated token (trimmed, compared case-insensitively) contains an entry
of the citizenship's visa-free list — with no fallback for an empty token. -/
def claimedVisaFreeRule (citizenship destination : String) : Bool :=
  match visaFreeCountries citizenship with
  | some countries =>
    countries.any fun country =>
      strIncludes (jsToLower (jsTrim ((jsSplitComma destination).getLastD "")))
        (jsToLower country)
  | none => false

/-- C6 counterexample: for citizenship "American" and destination "UK," the
trailing comma-separated token is empty, so the claimed rule does not match —
yet the code falls back to the whole destination string, matches "UK", and
returns `required = false`. The claimed equivalence fails at this input. -/
theorem visaTrailingTokenCounterexample :
    claimedVisaFreeRule "American" "UK," = false ∧
    (getVisaRequirements "American" "UK,").data.isSome = true ∧
    ((getVisaRequirements "American" "UK,").data.getD absentVisaData).required = false := by
  decide

/-- Helper: mapping a function over a list preserves emptiness. -/
theorem isEmpty_map (f : Char → Char) (l : List Char) : (l.map f).isEmpty = l.isEmpty := by
  cases l <;> rfl

/-- Visa-free rule as amended: the trailing comma-separated token, or the whole
destination string when that token is empty after trimming, case-insensitively
contains an entry of the citizenship's visa-free list. -/
def amendedVisaFreeRule (citizenship destination : String) : Bool :=
  match visaFreeCountries citizenship with
  | some countries =>
    let token := jsTrim ((jsSplitComma destination).getLastD "")
    let subject := if token.data.isEmpty then destination else token
    countries.any fun country => strIncludes (jsToLower subject) (jsToLower country)
  | none => false

theorem amendedVisaFreeRule_eq (c d : String) : amendedVisaFreeRule c d = isVisaFreeFor c d := by
  unfold amendedVisaFreeRule isVisaFreeFor destinationCountryOf
  cases visaFreeCountries c with
  | none => rfl
  | some countries =>
    dsimp only
    congr 1
    funext country
    congr 1
    by_cases ht : (jsTrim ((jsSplitComma d).getLastD "")).data.isEmpty = true
    · have ht' : (jsToLower (jsTrim ((jsSplitComma d).getLastD ""))).data.isEmpty = true := by
        unfold jsToLower
        simpa [isEmpty_map] using ht
      rw [if_pos ht, if_pos ht']
    · have ht' : ¬(jsToLower (jsTrim ((jsSplitComma d).getLastD ""))).data.isEmpty = true := by
        unfold jsToLower
        simpa [isEmpty_map] using ht
      rw [if_neg ht, if_neg ht']

/-- C6 amended: `getVisaRequirements` returns `required = false` exactly when
the destination's trailing comma-separated token — or, when that token is
empty after trimming, the whole destination string — case-insensitively
contains an entry of the citizenship's visa-free list; otherwise it returns
`required = true` with a non-empty generic document checklist; the result is
always tagged provenance `mock`; and citizenship "American" with destination
"London, UK" yields `required = false`. -/
theorem visaRuleAmended (c d : String) :
    (((getVisaRequirements c d).data.getD absentVisaData).required = false ↔
      amendedVisaFreeRule c d = true) ∧
    (amendedVisaFreeRule c d = false →
      ((getVisaRequirements c d).data.getD absentVisaData).required = true ∧
      ((getVisaRequirements c d).data.getD absentVisaData).documents ≠ []) ∧
    (getVisaRequirements c d).source = Source.mock ∧
    ((getVisaRequirements "American" "London, UK").data.getD absentVisaData).required = false := by
  rw [amendedVisaFreeRule_eq]
  refine ⟨?_, ?_, ?_, by decide⟩
  · unfold getVisaRequirements
    split
    · next h => simp [h]
    · next h => simp [h, absentVisaData]
  · intro hfree
    unfold getVisaRequirements
    rw [if_neg (by simp [hfree])]
    exact ⟨rfl, by simp [visaRequiredDocuments]⟩
  · obtain ⟨v, hv, -, -⟩ := getVisaRequirements_shape c d
    rw [hv]

/-- C7 counterexample: the location "A1B" has no 3-letter uppercase token
(`\b[A-Z]{3}\b` does not match), no city-table match, and is not flagged
unresolvable either — `getAirportCode` returns the location itself through
a third branch (3 characters equal to their own uppercasing) that the claim
omits, so the flight API would be called for it. -/
theorem airportCodeFallthroughCounterexample :
    extract3 "A1B" = none ∧ tableLookup "A1B" = none ∧
    getAirportCode "A1B" = "A1B" ∧ getAirportCode "A1B" ≠ "XXX" := by
  decide

/-- C7 amended: airport-code resolution first extracts a 3-letter uppercase
token when present; otherwise matches the static city table by
case-insensitive substring; otherwise, when the location is exactly 3
characters long and equal to its own uppercasing, uses the location string
itself as the code; otherwise flags the location unresolvable and skips the
flight-offers call entirely, returning an error-tagged result — and the
flight-offers API is never called with the placeholder code "XXX". -/
theorem airportCodeResolutionAmended :
    (∀ loc code, extract3 loc = some code → getAirportCode loc = code) ∧
    (∀ loc code, extract3 loc = none → tableLookup loc = some code →
      getAirportCode loc = code) ∧
    (∀ loc, extract3 loc = none → tableLookup loc = none →
      loc.data.length = 3 → jsToUpper loc = loc → getAirportCode loc = loc) ∧
    (∀ loc, extract3 loc = none → tableLookup loc = none →
      ¬(loc.data.length = 3 ∧ jsToUpper loc = loc) → getAirportCode loc = "XXX") ∧
    (∀ fe o d date, fe.tokenResult.success = true → jsTruthy fe.tokenResult.data = true →
      (getAirportCode o = "XXX" ∨ getAirportCode d = "XXX") →
      (searchFlights fe o d date).2 = none ∧
      (searchFlights fe o d date).1.success = false ∧
      (searchFlights fe o d date).1.source = Source.error) ∧
    (∀ fe o d date oc dc, (searchFlights fe o d date).2 = some (oc, dc) →
      oc ≠ "XXX" ∧ dc ≠ "XXX") := by
  refine ⟨?_, ?_, ?_, ?_, ?_, ?_⟩
  · intro loc code h
    unfold getAirportCode
    rw [h]
  · intro loc code h1 h2
    unfold getAirportCode
    rw [h1, h2]
  · intro loc h1 h2 h3 h4
    unfold getAirportCode
    rw [h1, h2, if_pos ⟨h3, h4⟩]
  · intro loc h1 h2 h3
    unfold getAirportCode
    rw [h1, h2, if_neg h3]
  · intro fe o d date htok htd hxxx
    unfold searchFlights
    dsimp only
    rw [if_neg (by rw [htok, htd]; simp)]
    rw [if_pos hxxx]
    exact ⟨rfl, rfl, rfl⟩
  · intro fe o d date oc dc h
    unfold searchFlights at h
    split at h
    · exact absurd h (by simp)
    · dsimp only at h
      by_cases hxxx : getAirportCode o = "XXX" ∨ getAirportCode d = "XXX"
      · rw [if_pos hxxx] at h
        exact absurd h (by simp)
      · rw [if_neg hxxx] at h
        push_neg at hxxx
        split at h
        all_goals
          first
          | (simp at h
             obtain ⟨h1, h2⟩ := h
             subst h1
             subst h2
             exact hxxx)
          | (split at h
             all_goals
               simp at h
               obtain ⟨h1, h2⟩ := h
               subst h1
               subst h2
               exact hxxx)

theorem inaccessibleMessage_includes_mode (mode : String) :
    strIncludes (inaccessibleMessage mode) mode = true :=
  strIncludes_of_decomp _ _
    "Destination may be inaccessible by the selected mode of transport ("
    "). Route details N/A."
    (by simp [inaccessibleMessage, String.data_append, List.append_assoc])

/-- Environment fixture: geocoding succeeds, the router reports no route. -/
def noRouteEnv : GenEnv := { baseEnv with hereRoute := noRouteFoundResult }

/-- Request fixture with a pedestrian transport mode. -/
def pedestrianArgs : GenArgs := { sampleArgs with transportMode := "pedestrian" }

/-- C8: when, after successful geocoding, the router reports a no-route-found
condition (as the `getHereRoute` no-route answer does), the RouteResult is
tagged provenance `error` and its error detail is exactly the dedicated
destination-may-be-inaccessible message naming the selected transport mode,
not the router's own error string. -/
theorem noRouteDedicatedMessage (env : GenEnv) (args : GenArgs)
    (hgeo : (env.depGeo.success && env.depGeo.data.isSome &&
             env.destGeo.success && env.destGeo.data.isSome) = true)
    (hfail : env.hereRoute.success = false)
    (hmsg : strIncludes (jsOr env.hereRoute.error "Could not fetch live route data.")
      "No route found" = true) :
    (routeStage env args).1.source = Source.error ∧
    (routeStage env args).1.error = some (inaccessibleMessage args.transportMode) ∧
    strIncludes (inaccessibleMessage args.transportMode) args.transportMode = true ∧
    noRouteFoundResult.success = false ∧
    strIncludes (jsOr noRouteFoundResult.error "Could not fetch live route data.")
      "No route found" = true := by
  unfold routeStage
  rw [if_pos hgeo]
  dsimp only
  rw [if_neg (by simp [hfail])]
  dsimp only
  rw [if_pos hmsg]
  exact ⟨rfl, rfl, inaccessibleMessage_includes_mode args.transportMode, rfl, by decide⟩

/-- C8 witness: the no-route environment with a pedestrian request. -/
theorem noRouteDedicatedMessage_witness :
    (routeStage noRouteEnv pedestrianArgs).1.source = Source.error ∧
    (routeStage noRouteEnv pedestrianArgs).1.error =
      some (inaccessibleMessage pedestrianArgs.transportMode) ∧
    strIncludes (inaccessibleMessage pedestrianArgs.transportMode)
      pedestrianArgs.transportMode = true ∧
    noRouteFoundResult.success = false ∧
    strIncludes (jsOr noRouteFoundResult.error "Could not fetch live route data.")
      "No route found" = true :=
  noRouteDedicatedMessage noRouteEnv pedestrianArgs (by decide) (by decide) (by decide)

/-- C2: when the token call succeeds, both airport codes resolve, and the
flight-offers call succeeds with zero offers, `searchFlights` returns
`source 'live'`, `totalPrice 0`, empty `segments` (a success with zero
results, not an error), and the aggregator's FlightResult keeps exactly that
provenance and payload. -/
theorem flightZeroOffersLive (fe : FlightEnv) (env : GenEnv) (args : GenArgs)
    (h₁ : fe.tokenResult.success = true) (h₂ : jsTruthy fe.tokenResult.data = true)
    (h₃ : ¬getAirportCode args.departureLocation = "XXX")
    (h₄ : ¬getAirportCode args.destinationLocation = "XXX")
    (h₅ : fe.http = FlightHttp.ok []) (h₆ : env.flightEnv = fe) (h₇ : env.throwAt = none) :
    (searchFlights fe args.departureLocation args.destinationLocation env.departureDateStr).1 =
      { success := true, data := some emptyFlightData,
        error := some "No flight offers found for the given criteria.", source := Source.live } ∧
    (mkPlanCore env args).flightData =
      { segments := [], totalPrice := 0, source := Source.live,
        error := some "No flight offers found for the given criteria." } := by
  have hsf : (searchFlights fe args.departureLocation args.destinationLocation
      env.departureDateStr).1 =
      { success := true, data := some emptyFlightData,
        error := some "No flight offers found for the given criteria.", source := Source.live } := by
    unfold searchFlights
    dsimp only
    rw [if_neg (by rw [h₁, h₂]; simp)]
    rw [if_neg (by push_neg; exact ⟨h₃, h₄⟩)]
    rw [h₅]
  refine ⟨hsf, ?_⟩
  rw [mkPlanCore_noThrow env args h₇]
  dsimp only
  rw [h₆, hsf]
  simp [mkFlightInfo, emptyFlightData]

/-- C2 witness: the zero-offers environment with the sample request. -/
theorem flightZeroOffersLive_witness :
    (searchFlights zeroOffersFlightEnv sampleArgs.departureLocation
      sampleArgs.destinationLocation baseEnv.departureDateStr).1 =
      { success := true, data := some emptyFlightData,
        error := some "No flight offers found for the given criteria.", source := Source.live } ∧
    (mkPlanCore baseEnv sampleArgs).flightData =
      { segments := [], totalPrice := 0, source := Source.live,
        error := some "No flight offers found for the given criteria." } :=
  flightZeroOffersLive zeroOffersFlightEnv baseEnv sampleArgs
    (by decide) (by decide) (by decide) (by decide) rfl rfl rfl

theorem isEmpty_eq_false_of_ne_nil {l : List Char} (h : l ≠ []) : l.isEmpty = false := by
  cases l with
  | nil => exact absurd rfl h
  | cons a t => rfl

theorem geoFailureMessage_mem (dep dest : ApiResult Coordinates) :
    'G' ∈ (geoFailureMessage dep dest).data := by
  unfold geoFailureMessage
  split <;> split
  all_goals simp [String.data_append, List.mem_cons, List.mem_append]

theorem geoFailureMessage_dep (dep dest : ApiResult Coordinates) (h : dep.success = false) :
    strIncludes (geoFailureMessage dep dest) "Departure:" = true := by
  unfold geoFailureMessage
  rw [h]
  dsimp only
  split
  · exact strIncludes_of_decomp _ _ "Geocoding failed: "
      (" " ++ jsOr dep.error "Unknown error" ++ ". " ++ "Destination: " ++
        jsOr dest.error "Unknown error" ++ ".")
      (by simp [String.data_append, List.append_assoc])
  · exact strIncludes_of_decomp _ _ "Geocoding failed: "
      (" " ++ jsOr dep.error "Unknown error" ++ ". ")
      (by simp [String.data_append, List.append_assoc])

theorem includes_dest_frag (m e : String) :
    strIncludes (m ++ "Destination: " ++ e ++ ".") "Destination:" = true :=
  strIncludes_of_decomp _ _ m (" " ++ e ++ ".")
    (by simp [String.data_append, List.append_assoc])

theorem geoFailureMessage_dest (dep dest : ApiResult Coordinates) (h : dest.success = false) :
    strIncludes (geoFailureMessage dep dest) "Destination:" = true := by
  unfold geoFailureMessage
  rw [h]
  rw [if_pos (show (!false) = true from rfl)]
  exact includes_dest_frag _ _

/-- C4: when geocoding of the departure or the destination fails, routing is
skipped and the RouteResult has provenance `error`, distance and duration 0,
transportMethods equal to the single requested mode, and an error detail
naming each failed location (a destination-specific fragment when the
destination failed); the flight result is still exactly the one computed from
the flight environment and the visa lookup still answers with provenance
`mock`, independently of the geocoding failure. -/
theorem geocodeFailureRouteError (env : GenEnv) (args : GenArgs)
    (hfail : env.depGeo.success = false ∨ env.destGeo.success = false)
    (hthrow : env.throwAt = none) :
    (mkPlanCore env args).routeData.source = Source.error ∧
    (mkPlanCore env args).routeData.distance = 0 ∧
    (mkPlanCore env args).routeData.duration = 0 ∧
    (mkPlanCore env args).routeData.transportMethods = [args.transportMode] ∧
    (∃ m, (mkPlanCore env args).routeData.error = some m ∧
      (env.depGeo.success = false → strIncludes m "Departure:" = true) ∧
      (env.destGeo.success = false → strIncludes m "Destination:" = true)) ∧
    (mkPlanCore env args).flightData =
      (mkFlightInfo ((searchFlights env.flightEnv args.departureLocation
        args.destinationLocation env.departureDateStr).1)).1 ∧
    (mkPlanCore env args).visaRequirements.source = Source.mock := by
  have hcond : ¬((env.depGeo.success && env.depGeo.data.isSome &&
      env.destGeo.success && env.destGeo.data.isSome) = true) := by
    rcases hfail with h | h <;> simp [h]
  have hroute : (routeStage env args).1 =
      { distance := 0, duration := 0, transportMethods := [args.transportMode],
        borderCrossings := [], source := .error,
        error := some (jsOr (some (jsTrim (geoFailureMessage env.depGeo env.destGeo)))
          "Geocoding for routing failed.") } := by
    unfold routeStage
    rw [if_neg hcond]
  have htrim : (jsTrim (geoFailureMessage env.depGeo env.destGeo)).data ≠ [] :=
    trimChars_ne_nil (geoFailureMessage_mem env.depGeo env.destGeo) (by decide)
  have herr : jsOr (some (jsTrim (geoFailureMessage env.depGeo env.destGeo)))
      "Geocoding for routing failed." = jsTrim (geoFailureMessage env.depGeo env.destGeo) := by
    unfold jsOr
    dsimp only
    rw [if_neg (by simp [isEmpty_eq_false_of_ne_nil htrim])]
  rw [mkPlanCore_noThrow env args hthrow]
  dsimp only
  rw [hroute]
  refine ⟨rfl, rfl, rfl, rfl, ?_, rfl, (mkVisaInfo_source _ _).1⟩
  refine ⟨jsTrim (geoFailureMessage env.depGeo env.destGeo), by rw [herr], ?_, ?_⟩
  · intro hdep
    exact strIncludes_jsTrim _ _ (by decide) (by decide) (by decide)
      (geoFailureMessage_dep env.depGeo env.destGeo hdep)
  · intro hdest
    exact strIncludes_jsTrim _ _ (by decide) (by decide) (by decide)
      (geoFailureMessage_dest env.depGeo env.destGeo hdest)

/-- Environment fixture: only the destination geocoding fails. -/
def destGeoFailEnv : GenEnv := { baseEnv with destGeo := failedGeoFixture }

/-- C4 witness: destination-only geocoding failure in an otherwise healthy
environment. -/
theorem geocodeFailureRouteError_witness :
    (mkPlanCore destGeoFailEnv sampleArgs).routeData.source = Source.error ∧
    (mkPlanCore destGeoFailEnv sampleArgs).routeData.distance = 0 ∧
    (∃ m, (mkPlanCore destGeoFailEnv sampleArgs).routeData.error = some m ∧
      (destGeoFailEnv.destGeo.success = false → strIncludes m "Destination:" = true)) ∧
    (mkPlanCore destGeoFailEnv sampleArgs).visaRequirements.source = Source.mock := by
  have h := geocodeFailureRouteError destGeoFailEnv sampleArgs (Or.inr (by decide)) rfl
  obtain ⟨m, hm, -, hdest⟩ := h.2.2.2.2.1
  exact ⟨h.1, h.2.1, ⟨m, hm, hdest⟩, h.2.2.2.2.2.2⟩

theorem mkPlanCore_beforeRoute (env : GenEnv) (args : GenArgs) (e : String)
    (h : env.throwAt = some (.beforeRoute, e)) :
    mkPlanCore env args = catchState args e none none none "" 500 := by
  unfold mkPlanCore
  rw [h]

theorem mkPlanCore_beforeFlight (env : GenEnv) (args : GenArgs) (e : String)
    (h : env.throwAt = some (.beforeFlight, e)) :
    mkPlanCore env args =
      catchState args e (some (routeStage env args).1) none none (routeStage env args).2 500 := by
  unfold mkPlanCore
  rw [h]

theorem mkPlanCore_beforeVisa (env : GenEnv) (args : GenArgs) (e : String)
    (h : env.throwAt = some (.beforeVisa, e)) :
    mkPlanCore env args =
      catchState args e (some (routeStage env args).1)
        (some (mkFlightInfo ((searchFlights env.flightEnv args.departureLocation
          args.destinationLocation env.departureDateStr).1)).1)
        none
        ((routeStage env args).2 ++
          (mkFlightInfo ((searchFlights env.flightEnv args.departureLocation
            args.destinationLocation env.departureDateStr).1)).2)
        500 := by
  unfold mkPlanCore
  rw [h]

theorem mkPlanCore_atLlm (env : GenEnv) (args : GenArgs) (e : String)
    (h : env.throwAt = some (.atLlm, e)) :
    mkPlanCore env args =
      catchState args e (some (routeStage env args).1)
        (some (mkFlightInfo ((searchFlights env.flightEnv args.departureLocation
          args.destinationLocation env.departureDateStr).1)).1)
        (some (mkVisaInfo (getVisaRequirements args.citizenship args.destinationLocation)).1)
        (jsTrim ((routeStage env args).2 ++
          (mkFlightInfo ((searchFlights env.flightEnv args.departureLocation
            args.destinationLocation env.departureDateStr).1)).2 ++
          (mkVisaInfo (getVisaRequirements args.citizenship args.destinationLocation)).2 ++
          (costStage (mkFlightInfo ((searchFlights env.flightEnv args.departureLocation
            args.destinationLocation env.departureDateStr).1)).1).2))
        (costStage (mkFlightInfo ((searchFlights env.flightEnv args.departureLocation
          args.destinationLocation env.departureDateStr).1)).1).1 := by
  unfold mkPlanCore
  rw [h]

theorem note_in_trimmed (x : String) :
    strIncludes
      (jsTrim (x ++ "Total cost is an estimate as live flight prices were unavailable. "))
      "Total cost is an estimate as live flight prices were unavailable." = true := by
  apply strIncludes_jsTrim _ _ (by decide) (by decide) (by decide)
  exact strIncludes_of_decomp _ _ x " " (by simp [String.data_append, List.append_assoc])

/-- C3 counterexample: a request whose flight search succeeds live with zero
offers completes without an exception, keeps the cost at the 500 baseline —
but no cost-is-estimated note is appended to the status message, because the
code adds that note only when flight provenance differs from `live`. -/
theorem costNoteMissingCounterexample :
    baseEnv.throwAt = none ∧
    (mkPlanCore baseEnv sampleArgs).flightData.source = Source.live ∧
    (mkPlanCore baseEnv sampleArgs).flightData.totalPrice = 0 ∧
    (mkPlanCore baseEnv sampleArgs).totalEstimatedCost = 500 ∧
    strIncludes (mkPlanCore baseEnv sampleArgs).statusMessage
      "Total cost is an estimate" = false := by
  decide

/-- C3 amended: for every request that completes without an uncaught
exception, totalEstimatedCost equals the 500 baseline plus the flight
totalPrice exactly when the flight sub-result has provenance `live` and
totalPrice > 0, and equals exactly 500 otherwise; the cost-is-estimated note
is appended exactly when the flight provenance is not `live` (so not in the
live-with-zero-offers case); and for all requests, including the catch-all
path, totalEstimatedCost >= 500. -/
theorem costAmended (env : GenEnv) (args : GenArgs) :
    (env.throwAt = none →
      (((mkPlanCore env args).flightData.source = Source.live ∧
        0 < (mkPlanCore env args).flightData.totalPrice) →
        (mkPlanCore env args).totalEstimatedCost =
          500 + (mkPlanCore env args).flightData.totalPrice) ∧
      (¬((mkPlanCore env args).flightData.source = Source.live ∧
        0 < (mkPlanCore env args).flightData.totalPrice) →
        (mkPlanCore env args).totalEstimatedCost = 500) ∧
      ((mkPlanCore env args).flightData.source ≠ Source.live →
        strIncludes (mkPlanCore env args).statusMessage
          "Total cost is an estimate as live flight prices were unavailable." = true)) ∧
    500 ≤ (mkPlanCore env args).totalEstimatedCost := by
  constructor
  · intro hthrow
    rw [mkPlanCore_noThrow env args hthrow]
    dsimp only
    refine ⟨fun h => costStage_eq_add _ h.1 h.2, fun h => costStage_eq_base _ h, fun h => ?_⟩
    rw [costStage_frag _ h]
    exact note_in_trimmed _
  · cases hthrow : env.throwAt with
    | none =>
      rw [mkPlanCore_noThrow env args hthrow]
      exact costStage_ge _
    | some pair =>
      obtain ⟨st, e⟩ := pair
      cases st with
      | beforeRoute =>
        rw [mkPlanCore_beforeRoute env args e hthrow, catchState_cost]
      | beforeFlight =>
        rw [mkPlanCore_beforeFlight env args e hthrow, catchState_cost]
      | beforeVisa =>
        rw [mkPlanCore_beforeVisa env args e hthrow, catchState_cost]
      | atLlm =>
        rw [mkPlanCore_atLlm env args e hthrow, catchState_cost]
        exact costStage_ge _

/-- C5 counterexample: a live flight offer of price 800 is found, the
narrative call then throws, and the catch-all keeps the already-computed
totalEstimatedCost of 1300 — the claim's "cost is kept at the 500 baseline"
fails on the most likely throw site. -/
theorem catchKeepsComputedCostCounterexample :
    llmThrowEnv.throwAt = some (ThrowStage.atLlm, "LLM request failed") ∧
    (mkPlanCore llmThrowEnv sampleArgs).flightData.source = Source.live ∧
    (mkPlanCore llmThrowEnv sampleArgs).flightData.totalPrice = 800 ∧
    (mkPlanCore llmThrowEnv sampleArgs).totalEstimatedCost = 1300 ∧
    ¬(mkPlanCore llmThrowEnv sampleArgs).totalEstimatedCost = 500 := by
  decide

/-- C5 amended: if an uncaught exception escapes the main sequence, the
aggregator still persists and returns a complete TravelPlan: every still-unset
sub-result is filled with a generic provenance-`error` placeholder, already
computed sub-results are kept, the narrative is set to the fixed apology
string, the cost is kept at its value from before the exception (the 500
baseline when the cost step had not yet run; the already-computed flight-
inclusive total when the narrative call threw), and an overall-failure notice
is prepended to the status message. -/
theorem catchFillsAndFlags (env : GenEnv) (args : GenArgs) (st : ThrowStage) (e : String)
    (h : env.throwAt = some (st, e)) :
    (mkPlanCore env args).aiResponse = apologyNarrative ∧
    strStartsWith (mkPlanCore env args).statusMessage
      "Overall plan generation failed:" = true ∧
    (st = ThrowStage.beforeRoute →
      (mkPlanCore env args).routeData = catchRouteDefault args.transportMode ∧
      (mkPlanCore env args).flightData = catchFlightDefault ∧
      (mkPlanCore env args).visaRequirements = catchVisaDefault ∧
      (mkPlanCore env args).totalEstimatedCost = 500) ∧
    (st = ThrowStage.beforeFlight →
      (mkPlanCore env args).routeData = (routeStage env args).1 ∧
      (mkPlanCore env args).flightData = catchFlightDefault ∧
      (mkPlanCore env args).visaRequirements = catchVisaDefault ∧
      (mkPlanCore env args).totalEstimatedCost = 500) ∧
    (st = ThrowStage.beforeVisa →
      (mkPlanCore env args).routeData = (routeStage env args).1 ∧
      (mkPlanCore env args).flightData =
        (mkFlightInfo ((searchFlights env.flightEnv args.departureLocation
          args.destinationLocation env.departureDateStr).1)).1 ∧
      (mkPlanCore env args).visaRequirements = catchVisaDefault ∧
      (mkPlanCore env args).totalEstimatedCost = 500) ∧
    (st = ThrowStage.atLlm →
      (mkPlanCore env args).routeData = (routeStage env args).1 ∧
      (mkPlanCore env args).flightData =
        (mkFlightInfo ((searchFlights env.flightEnv args.departureLocation
          args.destinationLocation env.departureDateStr).1)).1 ∧
      (mkPlanCore env args).visaRequirements =
        (mkVisaInfo (getVisaRequirements args.citizenship args.destinationLocation)).1 ∧
      (mkPlanCore env args).totalEstimatedCost =
        (costStage (mkFlightInfo ((searchFlights env.flightEnv args.departureLocation
          args.destinationLocation env.departureDateStr).1)).1).1) ∧
    ((env.auth.isSome = true ∧ env.dbError = none) →
      ∃ p, generateTravelPlan env args = Except.ok p ∧ p.aiResponse = apologyNarrative) := by
  have hai : (mkPlanCore env args).aiResponse = apologyNarrative := by
    unfold mkPlanCore
    rw [h]
    cases st <;> rfl
  have hmsg : strStartsWith (mkPlanCore env args).statusMessage
      "Overall plan generation failed:" = true := by
    unfold mkPlanCore
    rw [h]
    cases st <;> exact (catchState_message _ _ _ _ _ _ _).1
  have hpers : (env.auth.isSome = true ∧ env.dbError = none) →
      ∃ p, generateTravelPlan env args = Except.ok p ∧ p.aiResponse = apologyNarrative := by
    rintro ⟨hauth, hdb⟩
    obtain ⟨u, hu⟩ := Option.isSome_iff_exists.mp hauth
    unfold generateTravelPlan saveRoute
    rw [hu, hdb]
    exact ⟨_, rfl, hai⟩
  refine ⟨hai, hmsg, ?_, ?_, ?_, ?_, hpers⟩
  · intro hst
    subst hst
    rw [mkPlanCore_beforeRoute env args e h]
    exact ⟨rfl, rfl, rfl, catchState_cost _ _ _ _ _ _ _⟩
  · intro hst
    subst hst
    rw [mkPlanCore_beforeFlight env args e h]
    exact ⟨rfl, rfl, rfl, catchState_cost _ _ _ _ _ _ _⟩
  · intro hst
    subst hst
    rw [mkPlanCore_beforeVisa env args e h]
    exact ⟨rfl, rfl, rfl, catchState_cost _ _ _ _ _ _ _⟩
  · intro hst
    subst hst
    rw [mkPlanCore_atLlm env args e h]
    exact ⟨rfl, rfl, rfl, catchState_cost _ _ _ _ _ _ _⟩

/-- C5 witness: the live-offer environment whose narrative call throws. -/
theorem catchFillsAndFlags_witness :
    (mkPlanCore llmThrowEnv sampleArgs).aiResponse = apologyNarrative ∧
    strStartsWith (mkPlanCore llmThrowEnv sampleArgs).statusMessage
      "Overall plan generation failed:" = true ∧
    (∃ p, generateTravelPlan llmThrowEnv sampleArgs = Except.ok p ∧
      p.aiResponse = apologyNarrative) := by
  have h := catchFillsAndFlags llmThrowEnv sampleArgs ThrowStage.atLlm "LLM request failed" rfl
  exact ⟨h.1, h.2.1, h.2.2.2.2.2.2 ⟨rfl, rfl⟩⟩

/-- C9: the record passed to `saveRoute` and persisted agrees field-for-field
on every shared field with the object returned synchronously from
`generateTravelPlan` (with an empty status message omitted from both), and the
two exist simultaneously: a read-back immediately after creation equals the
returned plan. -/
theorem persistedEqualsReturned (env : GenEnv) (args : GenArgs) :
    (persistedRecord env args).map RouteRecord.aiResponse =
      (generateTravelPlan env args).toOption.map (fun p => some p.aiResponse) ∧
    (persistedRecord env args).map RouteRecord.routeData =
      (generateTravelPlan env args).toOption.map (fun p => some p.routeData) ∧
    (persistedRecord env args).map RouteRecord.flightData =
      (generateTravelPlan env args).toOption.map (fun p => some p.flightData) ∧
    (persistedRecord env args).map RouteRecord.visaRequirements =
      (generateTravelPlan env args).toOption.map (fun p => some p.visaRequirements) ∧
    (persistedRecord env args).map RouteRecord.totalEstimatedCost =
      (generateTravelPlan env args).toOption.map (fun p => some p.totalEstimatedCost) ∧
    (persistedRecord env args).map RouteRecord.planStatusMessage =
      (generateTravelPlan env args).toOption.map (fun p => p.planStatusMessage) := by
  unfold persistedRecord generateTravelPlan saveRoute
  cases hu : env.auth with
  | none => simp [Except.toOption]
  | some u =>
    cases hdb : env.dbError with
    | some e => simp [Except.toOption]
    | none => simp [Except.toOption, planSaveArgs]

theorem planMessage_ne (env : GenEnv) (args : GenArgs) :
    (mkPlanCore env args).statusMessage.data ≠ [] := by
  cases hthrow : env.throwAt with
  | none =>
    rw [mkPlanCore_noThrow env args hthrow]
    dsimp only
    rw [mkVisaInfo_frag]
    apply trimChars_ne_nil (c := 'N') ?_ (by decide)
    simp only [String.data_append, List.mem_append]
    refine Or.inl (Or.inr (Or.inl ?_))
    decide
  | some pair =>
    obtain ⟨st, e⟩ := pair
    cases st with
    | beforeRoute =>
      rw [mkPlanCore_beforeRoute env args e hthrow]
      exact (catchState_message _ _ _ _ _ _ _).2
    | beforeFlight =>
      rw [mkPlanCore_beforeFlight env args e hthrow]
      exact (catchState_message _ _ _ _ _ _ _).2
    | beforeVisa =>
      rw [mkPlanCore_beforeVisa env args e hthrow]
      exact (catchState_message _ _ _ _ _ _ _).2
    | atLlm =>
      rw [mkPlanCore_atLlm env args e hthrow]
      exact (catchState_message _ _ _ _ _ _ _).2

/-- C1: for every request, the aggregator returns a structurally complete
TravelPlan whenever persistence is available — sub-failures are signalled only
through provenance `error` fields and a non-empty status message, never by an
exception — and it propagates an error to its caller exactly when persisting
the plan itself fails (missing authenticated user or database failure). -/
theorem aggregatorTotal (env : GenEnv) (args : GenArgs) :
    ((env.auth.isSome = true ∧ env.dbError = none) →
      ∃ p, generateTravelPlan env args = Except.ok p ∧
        (∃ m, p.planStatusMessage = some m ∧ m.data ≠ []) ∧
        ((p.routeData.source = Source.error ∨ p.flightData.source = Source.error ∨
          p.visaRequirements.source = Source.error) →
          ∃ m, p.planStatusMessage = some m ∧ m.data ≠ [])) ∧
    (¬(env.auth.isSome = true ∧ env.dbError = none) →
      ∃ e, generateTravelPlan env args = Except.error e) := by
  constructor
  · rintro ⟨hauth, hdb⟩
    obtain ⟨u, hu⟩ := Option.isSome_iff_exists.mp hauth
    have hne := planMessage_ne env args
    have hm : ∃ m, (if (mkPlanCore env args).statusMessage.data.isEmpty = true then none
        else some (mkPlanCore env args).statusMessage) = some m ∧ m.data ≠ [] := by
      rw [if_neg (by simp [isEmpty_eq_false_of_ne_nil hne])]
      exact ⟨_, rfl, hne⟩
    have hgen : generateTravelPlan env args = Except.ok
        { routeId := env.newRouteId,
          aiResponse := (mkPlanCore env args).aiResponse,
          routeData := (mkPlanCore env args).routeData,
          flightData := (mkPlanCore env args).flightData,
          visaRequirements := (mkPlanCore env args).visaRequirements,
          totalEstimatedCost := (mkPlanCore env args).totalEstimatedCost,
          planStatusMessage := if (mkPlanCore env args).statusMessage.data.isEmpty = true
            then none else some (mkPlanCore env args).statusMessage } := by
      unfold generateTravelPlan saveRoute
      rw [hu, hdb]
    exact ⟨_, hgen, hm, fun _ => hm⟩
  · intro hnot
    unfold generateTravelPlan saveRoute
    cases hu : env.auth with
    | none => exact ⟨_, rfl⟩
    | some u =>
      cases hdb : env.dbError with
      | some e2 => exact ⟨_, rfl⟩
      | none => exact absurd ⟨by simp [hu], hdb⟩ hnot

/-- C1 witness: the healthy environment returns a plan whose status message is
present and non-empty. -/
theorem aggregatorTotal_witness :
    ∃ p, generateTravelPlan baseEnv sampleArgs = Except.ok p ∧
      (∃ m, p.planStatusMessage = some m ∧ m.data ≠ []) := by
  obtain ⟨p, hp, hm, -⟩ := (aggregatorTotal baseEnv sampleArgs).1 ⟨rfl, rfl⟩
  exact ⟨p, hp, hm⟩

end TravelMate
